import Mathlib

/-!
Shallow embedding of the WebRTC player client (src/html/players/webrtc.js):
the connection state machine and reconnect policy, the SDP codec extractor
and classifier, the stats delta engine (bitrate, frame-drop rate, packet
loss rate) and the bounded history store. JS numbers are modelled as
rationals, absent fields as Option, and the two regular expressions the
claims depend on are modelled character for character over the SDP text.
-/

namespace WebRTC

/-- Constant from webrtc.js line 9. -/
def RECONNECT_DELAY : Nat := 3000

/-- Constant from webrtc.js line 10. -/
def MAX_RECONNECT_ATTEMPTS : Nat := 5

/-- Constant from webrtc.js line 11. -/
def STATS_HISTORY_SIZE : Nat := 60

/-- One push into a history series, as updateStatsHistory performs it:
`arr.push(v); if (arr.length > maxHistory) arr.shift();` (webrtc.js
lines 1705-1710 and the analogous blocks below it). -/
def pushHistory (buf : List α) (v : α) : List α :=
  if STATS_HISTORY_SIZE < (buf ++ [v]).length then (buf ++ [v]).tail else buf ++ [v]

theorem pushHistory_length_le (buf : List α) (v : α) (h : buf.length ≤ 60) :
    (pushHistory buf v).length ≤ 60 := by
  unfold pushHistory STATS_HISTORY_SIZE
  split_ifs with hc
  · rw [List.length_tail, List.length_append, List.length_singleton]
    omega
  · rw [List.length_append, List.length_singleton] at hc ⊢
    omega

theorem foldl_pushHistory (vs : List α) :
    ∀ buf : List α, buf.length ≤ 60 →
      List.foldl pushHistory buf vs = (buf ++ vs).drop (buf.length + vs.length - 60) := by
  induction vs with
  | nil =>
    intro buf h
    rw [List.foldl_nil, List.append_nil, List.length_nil, Nat.add_zero,
      Nat.sub_eq_zero_of_le h, List.drop_zero]
  | cons v vs ih =>
    intro buf h
    rw [List.foldl_cons]
    by_cases hlen : buf.length ≤ 59
    · have hpush : pushHistory buf v = buf ++ [v] := by
        unfold pushHistory STATS_HISTORY_SIZE
        rw [if_neg]
        rw [List.length_append, List.length_singleton]
        omega
      rw [hpush, ih (buf ++ [v])
        (by rw [List.length_append, List.length_singleton]; omega)]
      rw [List.append_assoc, List.singleton_append]
      congr 1
      rw [List.length_append, List.length_singleton, List.length_cons]
      omega
    · have hb : buf.length = 60 := by omega
      have hne : buf ≠ [] := by
        intro hnil
        rw [hnil] at hb
        simp at hb
      have hpush : pushHistory buf v = (buf ++ [v]).tail := by
        unfold pushHistory STATS_HISTORY_SIZE
        rw [if_pos]
        rw [List.length_append, List.length_singleton]
        omega
      have htail : (buf ++ [v]).tail = buf.tail ++ [v] := by
        cases buf with
        | nil => exact absurd rfl hne
        | cons a as => simp
      have htlen : buf.tail.length = 59 := by
        cases buf with
        | nil => exact absurd rfl hne
        | cons a as =>
          simp at hb ⊢
          omega
      rw [hpush, htail, ih (buf.tail ++ [v])
        (by rw [List.length_append, List.length_singleton, htlen])]
      have hdrop1 : buf.tail ++ ([v] ++ vs) = (buf ++ ([v] ++ vs)).drop 1 := by
        cases buf with
        | nil => exact absurd rfl hne
        | cons a as => simp
      rw [List.append_assoc, hdrop1, List.drop_drop, List.singleton_append]
      congr 1
      simp only [List.length_append, List.length_singleton, List.length_cons,
        List.length_nil, htlen, hb]
      omega

theorem foldl_pushHistory_length (vs : List α) (buf : List α) (h : buf.length ≤ 60) :
    (List.foldl pushHistory buf vs).length ≤ 60 := by
  rw [foldl_pushHistory vs buf h]
  simp only [List.length_drop, List.length_append]
  omega

/-- C4: a history series never grows past the fixed capacity 60 (the
invariant is preserved by every push and holds after any sequence of
pushes from the initial empty series), and pushing 100 values into the
empty series leaves exactly the last 60 of them, oldest first. -/
theorem historyBuffer_capacity_and_order :
    (∀ (buf : List ℚ) (v : ℚ), buf.length ≤ 60 → (pushHistory buf v).length ≤ 60)
    ∧ (∀ vs : List ℚ, (List.foldl pushHistory ([] : List ℚ) vs).length ≤ 60)
    ∧ (∀ vs : List ℚ, vs.length = 100 →
        List.foldl pushHistory ([] : List ℚ) vs = vs.drop 40) := by
  refine ⟨pushHistory_length_le, ?_, ?_⟩
  · intro vs
    exact foldl_pushHistory_length vs [] (by simp)
  · intro vs h100
    rw [foldl_pushHistory vs [] (by simp)]
    simp only [List.nil_append, List.length_nil, Nat.zero_add]
    rw [h100]

/-- Witness for C4: the invariant and the 100-push law at a concrete series. -/
theorem historyBuffer_capacity_and_order_witness :
    (List.replicate 100 (37 : ℚ)).length = 100
    ∧ List.foldl pushHistory ([] : List ℚ) (List.replicate 100 (37 : ℚ))
        = (List.replicate 100 (37 : ℚ)).drop 40 :=
  ⟨by rw [List.length_replicate],
   historyBuffer_capacity_and_order.2.2 _ (by rw [List.length_replicate])⟩

/-- The fields of one inbound-rtp statistics snapshot that the delta engine
reads (parseStats, webrtc.js lines 846-959). A field that the transport did
not report is `none` (JS `undefined`). -/
structure RtpStats where
  timestamp : Option ℚ
  bytesReceived : Option ℚ
  framesDecoded : Option ℚ
  framesDropped : Option ℚ
  packetsLost : Option ℚ
  packetsReceived : Option ℚ
deriving DecidableEq

/-- JS `x || 0` on a possibly-undefined counter. -/
def orZero (x : Option ℚ) : ℚ := x.getD 0

/-- `const timeDiff = (stat.timestamp - prevVideo.timestamp) / 1000 || 1;`
(webrtc.js line 849): when either timestamp is absent the difference is NaN
and `|| 1` yields 1; when the difference is 0, `|| 1` also yields 1. -/
def timeDiff (stat prev : RtpStats) : ℚ :=
  match stat.timestamp, prev.timestamp with
  | some t, some pt => if (t - pt) / 1000 = 0 then 1 else (t - pt) / 1000
  | _, _ => 1

/-- Frame-drop rate of one video sampling interval (webrtc.js lines 852-860):
`droppedDelta / (decodedDelta + droppedDelta) * 100`, 0 when the total
delta is not positive. -/
def frameDropRate (stat prev : RtpStats) : ℚ :=
  let framesDecodedDelta := orZero stat.framesDecoded - orZero prev.framesDecoded
  let framesDroppedDelta := orZero stat.framesDropped - orZero prev.framesDropped
  let totalFramesDelta := framesDecodedDelta + framesDroppedDelta
  if 0 < totalFramesDelta then framesDroppedDelta / totalFramesDelta * 100 else 0

/-- Packet-loss rate over cumulative counters (renderStatsTab, webrtc.js
lines 1022-1029): `lost / (lost + received) * 100` when `received > 0`,
else 0; `lost` and `received` come from the report fields set in
parseStats with `|| 0` defaults (lines 889-890). -/
def packetLossRate (stat : RtpStats) : ℚ :=
  let lost := orZero stat.packetsLost
  let received := orZero stat.packetsReceived
  if 0 < received then lost / (lost + received) * 100 else 0

/-- Video bitrate of one sampling interval (webrtc.js lines 886-888):
`(stat.bytesReceived - (prevVideo.bytesReceived || 0)) * 8 / timeDiff`.
`stat.bytesReceived` is used without a default there, so an absent current
counter makes the whole expression NaN, modelled as `none`. -/
def videoBitrate (stat prev : RtpStats) : Option ℚ :=
  match stat.bytesReceived with
  | some bytes => some ((bytes - orZero prev.bytesReceived) * 8 / timeDiff stat prev)
  | none => none

/-- C3: with non-negative, monotonically non-decreasing counters, both the
frame-drop rate (delta based, 0 on zero denominator) and the packet-loss
rate (cumulative, 0 when no packets received) lie within [0, 100]. -/
theorem rates_within_bounds (stat prev : RtpStats)
    (h1 : 0 ≤ orZero prev.framesDecoded)
    (h2 : orZero prev.framesDecoded ≤ orZero stat.framesDecoded)
    (h3 : 0 ≤ orZero prev.framesDropped)
    (h4 : orZero prev.framesDropped ≤ orZero stat.framesDropped)
    (h5 : 0 ≤ orZero stat.packetsLost)
    (h6 : 0 ≤ orZero stat.packetsReceived) :
    (0 ≤ frameDropRate stat prev ∧ frameDropRate stat prev ≤ 100)
    ∧ (0 ≤ packetLossRate stat ∧ packetLossRate stat ≤ 100) := by
  constructor
  · rw [frameDropRate]
    split_ifs with hpos
    · constructor
      · apply mul_nonneg (div_nonneg (by linarith) (le_of_lt hpos)) (by norm_num)
      · have hle : (orZero stat.framesDropped - orZero prev.framesDropped)
            / (orZero stat.framesDecoded - orZero prev.framesDecoded
              + (orZero stat.framesDropped - orZero prev.framesDropped)) ≤ 1 :=
          (div_le_one hpos).mpr (by linarith)
        calc (orZero stat.framesDropped - orZero prev.framesDropped)
            / (orZero stat.framesDecoded - orZero prev.framesDecoded
              + (orZero stat.framesDropped - orZero prev.framesDropped)) * 100
            ≤ 1 * 100 := by
              apply mul_le_mul_of_nonneg_right hle
              norm_num
          _ = 100 := by norm_num
    · norm_num
  · rw [packetLossRate]
    split_ifs with hpos
    · constructor
      · apply mul_nonneg (div_nonneg h5 (by linarith)) (by norm_num)
      · have hle : orZero stat.packetsLost
            / (orZero stat.packetsLost + orZero stat.packetsReceived) ≤ 1 :=
          (div_le_one (by linarith)).mpr (by linarith)
        calc orZero stat.packetsLost
            / (orZero stat.packetsLost + orZero stat.packetsReceived) * 100
            ≤ 1 * 100 := by
              apply mul_le_mul_of_nonneg_right hle
              norm_num
          _ = 100 := by norm_num
    · norm_num

/-- Witness for C3 at a concrete pair of snapshots. -/
theorem rates_within_bounds_witness :
    (0 ≤ frameDropRate
        ⟨some 2000, some 500000, some 580, some 30, some 12, some 9000⟩
        ⟨some 1000, some 250000, some 300, some 10, some 5, some 4000⟩
      ∧ frameDropRate
        ⟨some 2000, some 500000, some 580, some 30, some 12, some 9000⟩
        ⟨some 1000, some 250000, some 300, some 10, some 5, some 4000⟩ ≤ 100)
    ∧ (0 ≤ packetLossRate ⟨some 2000, some 500000, some 580, some 30, some 12, some 9000⟩
      ∧ packetLossRate ⟨some 2000, some 500000, some 580, some 30, some 12, some 9000⟩ ≤ 100) :=
  rates_within_bounds _ _ (by norm_num [orZero]) (by norm_num [orZero])
    (by norm_num [orZero]) (by norm_num [orZero]) (by norm_num [orZero])
    (by norm_num [orZero])

/-- Snapshot A of the spec's bitrate example: bytesReceived 1000 at t = 0 ms. -/
def snapA : RtpStats := ⟨some 0, some 1000, none, none, none, none⟩

/-- Snapshot B of the spec's bitrate example: bytesReceived 2000 at t = 1000 ms. -/
def snapB : RtpStats := ⟨some 1000, some 2000, none, none, none, none⟩

/-- C5: bitrate is byte delta times 8 over elapsed seconds; at the spec's
example pair it is 8000 bits/sec; a zero elapsed time or an absent previous
timestamp makes the interval default to 1 second; a negative byte delta is
not clamped and yields a negative bitrate. -/
theorem videoBitrate_spec :
    (∀ (s p : RtpStats) (b pb t pt : ℚ),
      s.bytesReceived = some b → p.bytesReceived = some pb →
      s.timestamp = some t → p.timestamp = some pt → (t - pt) / 1000 ≠ 0 →
      videoBitrate s p = some ((b - pb) * 8 / ((t - pt) / 1000)))
    ∧ videoBitrate snapB snapA = some 8000
    ∧ (∀ (s p : RtpStats) (t : ℚ),
      s.timestamp = some t → p.timestamp = some t → timeDiff s p = 1)
    ∧ (∀ s p : RtpStats, p.timestamp = none → timeDiff s p = 1)
    ∧ (∀ (s p : RtpStats) (b pb t pt : ℚ),
      s.bytesReceived = some b → p.bytesReceived = some pb →
      s.timestamp = some t → p.timestamp = some pt → b < pb → pt < t →
      ∃ q, videoBitrate s p = some q ∧ q < 0) := by
  have hformula : ∀ (s p : RtpStats) (b pb t pt : ℚ),
      s.bytesReceived = some b → p.bytesReceived = some pb →
      s.timestamp = some t → p.timestamp = some pt → (t - pt) / 1000 ≠ 0 →
      videoBitrate s p = some ((b - pb) * 8 / ((t - pt) / 1000)) := by
    intro s p b pb t pt hb hpb ht hpt hne
    simp only [videoBitrate, timeDiff, hb, hpb, ht, hpt, orZero, Option.getD_some]
    rw [if_neg hne]
  refine ⟨hformula, ?_, ?_, ?_, ?_⟩
  · rw [hformula snapB snapA 2000 1000 1000 0 rfl rfl rfl rfl (by norm_num)]
    norm_num
  · intro s p t ht hpt
    simp only [timeDiff, ht, hpt]
    rw [sub_self, zero_div, if_pos rfl]
  · intro s p hpt
    rcases hs : s.timestamp with _ | t <;> simp only [timeDiff, hs, hpt]
  · intro s p b pb t pt hb hpb ht hpt hblt htlt
    have hpos : (0 : ℚ) < (t - pt) / 1000 := div_pos (by linarith) (by norm_num)
    refine ⟨(b - pb) * 8 / ((t - pt) / 1000),
      hformula s p b pb t pt hb hpb ht hpt (ne_of_gt hpos), ?_⟩
    apply div_neg_of_neg_of_pos _ hpos
    nlinarith

/-- Witness for C5: the general formula, the default interval and the
negative-delta behaviour, each discharged at concrete snapshots. -/
theorem videoBitrate_spec_witness :
    videoBitrate snapB snapA = some ((2000 - 1000) * 8 / ((1000 - 0) / 1000))
    ∧ timeDiff snapB snapB = 1
    ∧ timeDiff snapB ⟨none, some 1000, none, none, none, none⟩ = 1
    ∧ ∃ q, videoBitrate ⟨some 2000, some 100, none, none, none, none⟩ snapB = some q ∧ q < 0 :=
  ⟨videoBitrate_spec.1 snapB snapA 2000 1000 1000 0 rfl rfl rfl rfl (by norm_num),
   videoBitrate_spec.2.2.1 snapB snapB 1000 rfl rfl,
   videoBitrate_spec.2.2.2.1 snapB ⟨none, some 1000, none, none, none, none⟩ rfl,
   videoBitrate_spec.2.2.2.2 ⟨some 2000, some 100, none, none, none, none⟩ snapB
     100 2000 2000 1000 rfl rfl rfl rfl (by norm_num) (by norm_num)⟩

/-- The monotone high-water update for the maximum observed frame rate
(webrtc.js lines 469-471 and 929-933):
`if (fps > maxFpsAchieved) maxFpsAchieved = fps;`. -/
def updateMaxFps (maxFps fps : ℚ) : ℚ := if maxFps < fps then fps else maxFps

/-- The two code paths that write performanceMetrics.maxFpsAchieved: the
requestVideoFrameCallback handler (monitorVideoTrack, lines 457-483) and a
stats tick (parseStats, lines 928-933, where the candidate is
`videoFrameCallbackFps || report.video.fps`). -/
inductive FpsEvent
  | frameCallback (fps : ℚ)
  | statsTick (videoFrameCallbackFps statFps : ℚ)

/-- Effect of one FpsEvent on maxFpsAchieved. -/
def applyFpsEvent (maxFps : ℚ) : FpsEvent → ℚ
  | .frameCallback fps => updateMaxFps maxFps fps
  | .statsTick vcb statFps => updateMaxFps maxFps (if vcb = 0 then statFps else vcb)

/-- C7: maxFpsAchieved is a monotone high-water mark: one update replaces it
exactly when the measurement strictly exceeds it, no event decreases it, and
it is non-decreasing across every sequence of measurements of a session. -/
theorem maxFpsAchieved_monotone :
    (∀ m f : ℚ, f ≤ m → updateMaxFps m f = m)
    ∧ (∀ m f : ℚ, m < f → updateMaxFps m f = f)
    ∧ (∀ (m : ℚ) (e : FpsEvent), m ≤ applyFpsEvent m e)
    ∧ (∀ (m : ℚ) (evs : List FpsEvent), m ≤ List.foldl applyFpsEvent m evs) := by
  have hstep : ∀ (m : ℚ) (e : FpsEvent), m ≤ applyFpsEvent m e := by
    intro m e
    cases e <;>
      · rw [applyFpsEvent, updateMaxFps]
        split_ifs <;> linarith
  refine ⟨?_, ?_, hstep, ?_⟩
  · intro m f h
    rw [updateMaxFps, if_neg (by linarith)]
  · intro m f h
    rw [updateMaxFps, if_pos h]
  · intro m evs
    induction evs generalizing m with
    | nil => rw [List.foldl_nil]
    | cons e evs ih =>
      rw [List.foldl_cons]
      exact le_trans (hstep m e) (ih (applyFpsEvent m e))

/-- Witness for C7 at concrete measurements. -/
theorem maxFpsAchieved_monotone_witness :
    updateMaxFps 60 30 = 60
    ∧ updateMaxFps 30 60 = 60
    ∧ (59 : ℚ) ≤ List.foldl applyFpsEvent 59 [.frameCallback 61, .statsTick 0 25] :=
  ⟨maxFpsAchieved_monotone.1 60 30 (by norm_num),
   maxFpsAchieved_monotone.2.1 30 60 (by norm_num),
   maxFpsAchieved_monotone.2.2.2 59 [.frameCallback 61, .statsTick 0 25]⟩

/-- The nine metric series allocated in the constructor (webrtc.js
lines 38-48). -/
structure StatsHistory where
  fps : List ℚ
  bitrate : List ℚ
  packetLoss : List ℚ
  jitter : List ℚ
  rtt : List ℚ
  framesDecoded : List ℚ
  framesDropped : List ℚ
  keyFrameInterval : List ℚ
  videoFrameCallbackFps : List ℚ
deriving DecidableEq

/-- statsHistory as the constructor allocates it: every series empty. -/
def initialStatsHistory : StatsHistory := ⟨[], [], [], [], [], [], [], [], []⟩

/-- The fields of a parsed report that updateStatsHistory reads (webrtc.js
lines 1702-1748), plus the video bitrate (set by parseStats at lines
886-888) which updateStatsHistory never reads. `none` is JS `undefined`. -/
structure StatsReport where
  videoFps : Option ℚ
  videoFrameCallbackFps : Option ℚ
  videoBitrateValue : Option ℚ
  videoFramesDecoded : Option ℚ
  videoFramesDropped : Option ℚ
  audioBitrate : Option ℚ
  connectionRtt : Option ℚ
deriving DecidableEq

/-- `if (field !== undefined) { series.push(field); ...shift... }`. -/
def pushIfDefined (buf : List ℚ) : Option ℚ → List ℚ
  | some v => pushHistory buf v
  | none => buf

/-- updateStatsHistory (webrtc.js lines 1702-1748): it appends
report.video.fps, report.video.videoFrameCallbackFps, report.audio.bitrate,
report.connection.rtt, report.video.framesDecoded and
report.video.framesDropped to their series when defined, and touches no
other series. -/
def updateStatsHistory (h : StatsHistory) (r : StatsReport) : StatsHistory :=
  { h with
    fps := pushIfDefined h.fps r.videoFps
    videoFrameCallbackFps := pushIfDefined h.videoFrameCallbackFps r.videoFrameCallbackFps
    bitrate := pushIfDefined h.bitrate r.audioBitrate
    rtt := pushIfDefined h.rtt r.connectionRtt
    framesDecoded := pushIfDefined h.framesDecoded r.videoFramesDecoded
    framesDropped := pushIfDefined h.framesDropped r.videoFramesDropped }

/-- C8: the packetLoss, jitter and keyFrameInterval series are preserved
untouched by every updateStatsHistory call, so after any sequence of
sampling reports from the initial state they are still empty. -/
theorem unusedSeries_stay_empty :
    (∀ (h : StatsHistory) (r : StatsReport),
      (updateStatsHistory h r).packetLoss = h.packetLoss
      ∧ (updateStatsHistory h r).jitter = h.jitter
      ∧ (updateStatsHistory h r).keyFrameInterval = h.keyFrameInterval)
    ∧ (∀ rs : List StatsReport,
      (List.foldl updateStatsHistory initialStatsHistory rs).packetLoss = []
      ∧ (List.foldl updateStatsHistory initialStatsHistory rs).jitter = []
      ∧ (List.foldl updateStatsHistory initialStatsHistory rs).keyFrameInterval = []) := by
  have hone : ∀ (h : StatsHistory) (r : StatsReport),
      (updateStatsHistory h r).packetLoss = h.packetLoss
      ∧ (updateStatsHistory h r).jitter = h.jitter
      ∧ (updateStatsHistory h r).keyFrameInterval = h.keyFrameInterval := by
    intro h r
    exact ⟨rfl, rfl, rfl⟩
  refine ⟨hone, ?_⟩
  intro rs
  induction rs using List.reverseRecOn with
  | nil => exact ⟨rfl, rfl, rfl⟩
  | append_singleton rs r ih =>
    rw [List.foldl_append, List.foldl_cons, List.foldl_nil]
    obtain ⟨i1, i2, i3⟩ := ih
    obtain ⟨o1, o2, o3⟩ := hone (List.foldl updateStatsHistory initialStatsHistory rs) r
    exact ⟨o1.trans i1, o2.trans i2, o3.trans i3⟩

theorem pushHistory_getLast (buf : List ℚ) (v : ℚ) :
    (pushHistory buf v).getLast? = some v := by
  unfold pushHistory
  split_ifs with hc
  · cases buf with
    | nil => norm_num [STATS_HISTORY_SIZE] at hc
    | cons a as =>
      rw [List.cons_append, List.tail_cons, List.getLast?_concat]
  · rw [List.getLast?_concat]

/-- C9: updateStatsHistory appends report.audio.bitrate to the bitrate
series exactly when it is defined (the appended element is the audio
bitrate), leaves the series alone when it is undefined, and the video
bitrate of the report has no effect on any series. -/
theorem bitrate_series_is_audio :
    (∀ (h : StatsHistory) (r : StatsReport) (v : ℚ), r.audioBitrate = some v →
      (updateStatsHistory h r).bitrate = pushHistory h.bitrate v
      ∧ (updateStatsHistory h r).bitrate.getLast? = some v)
    ∧ (∀ (h : StatsHistory) (r : StatsReport), r.audioBitrate = none →
      (updateStatsHistory h r).bitrate = h.bitrate)
    ∧ (∀ (h : StatsHistory) (r : StatsReport) (v : Option ℚ),
      updateStatsHistory h { r with videoBitrateValue := v } = updateStatsHistory h r) := by
  refine ⟨?_, ?_, ?_⟩
  · intro h r v hv
    have hb : (updateStatsHistory h r).bitrate = pushHistory h.bitrate v := by
      show pushIfDefined h.bitrate r.audioBitrate = _
      rw [hv]
      rfl
    exact ⟨hb, by rw [hb, pushHistory_getLast]⟩
  · intro h r hv
    show pushIfDefined h.bitrate r.audioBitrate = _
    rw [hv]
    rfl
  · intro h r v
    cases r
    rfl

/-- Witness for C9 at a concrete history and report. -/
theorem bitrate_series_is_audio_witness :
    (updateStatsHistory initialStatsHistory ⟨some 30, none, some 2000000, some 7, none, some 64000, none⟩).bitrate
        = pushHistory initialStatsHistory.bitrate 64000
    ∧ (updateStatsHistory initialStatsHistory ⟨some 30, none, some 2000000, some 7, none, some 64000, none⟩).bitrate.getLast?
        = some 64000
    ∧ (updateStatsHistory initialStatsHistory ⟨some 30, none, some 2000000, some 7, none, none, none⟩).bitrate
        = initialStatsHistory.bitrate :=
  ⟨(bitrate_series_is_audio.1 initialStatsHistory _ 64000 rfl).1,
   (bitrate_series_is_audio.1 initialStatsHistory _ 64000 rfl).2,
   bitrate_series_is_audio.2.1 initialStatsHistory _ rfl⟩

/-- Whether `p` is an initial segment of `l` (character lists). -/
def isPrefixList : List Char → List Char → Bool
  | [], _ => true
  | _ :: _, [] => false
  | a :: as, b :: bs => a == b && isPrefixList as bs

/-- JS `String.prototype.includes` on character lists: `pat` occurs
contiguously somewhere in `l`. -/
def containsList : List Char → List Char → Bool
  | pat, [] => pat.isEmpty
  | pat, c :: cs => isPrefixList pat (c :: cs) || containsList pat cs

/-- JS `s.includes(pat)`. -/
def containsStr (s pat : String) : Bool := containsList pat.data s.data

/-- The player state fields the connection lifecycle touches
(initializeState, webrtc.js lines 101-122, plus the status/error DOM
writes modelled as fields): reconnectAttempts, isPlaying,
connectionQuality, the status text, the last error message shown, and
streamStartTime. -/
structure PlayerSM where
  reconnectAttempts : Nat
  isPlaying : Bool
  connectionQuality : String
  statusText : String
  lastError : Option String
  streamStartTime : Option ℚ
deriving DecidableEq

/-- The initial player state (initializeState, webrtc.js lines 101-122). -/
def initialPlayer : PlayerSM :=
  { reconnectAttempts := 0
    isPlaying := false
    connectionQuality := "connecting"
    statusText := ""
    lastError := none
    streamStartTime := none }

/-- updateConnectionStatus (webrtc.js lines 598-609): records the quality
class and the status text. -/
def updateConnectionStatus (s : PlayerSM) (quality text : String) : PlayerSM :=
  { s with connectionQuality := quality, statusText := text }

/-- showError (webrtc.js lines 589-596): the message shown in the error box. -/
def showError (s : PlayerSM) (message : String) : PlayerSM :=
  { s with lastError := some message }

/-- attemptReconnect (webrtc.js lines 547-562). The Bool of the result is
whether a reconnection timer (`setTimeout(startPlaying, RECONNECT_DELAY)`)
was scheduled by this call: at or above the ceiling the terminal error is
shown and no timer is scheduled; below it the counter is incremented, the
status shows `Reconnecting... (n/5)` and the timer is scheduled. -/
def attemptReconnect (s : PlayerSM) : PlayerSM × Bool :=
  if MAX_RECONNECT_ATTEMPTS ≤ s.reconnectAttempts then
    (showError s "Connection lost. Please refresh the page.", false)
  else
    (updateConnectionStatus { s with reconnectAttempts := s.reconnectAttempts + 1 }
      "connecting"
      ("Reconnecting... (" ++ toString (s.reconnectAttempts + 1) ++ "/"
        ++ toString MAX_RECONNECT_ATTEMPTS ++ ")"),
     true)

/-- The connectionstatechange handler (monitorConnection, webrtc.js
lines 521-545): "connected" and "connecting" only update the status;
"disconnected" and "failed" update it and call attemptReconnect; any other
value does nothing. -/
def connectionStateHandler (s : PlayerSM) (st : String) : PlayerSM × Bool :=
  if st = "connected" then (updateConnectionStatus s "good" "Connected", false)
  else if st = "connecting" then (updateConnectionStatus s "connecting" "Connecting...", false)
  else if st = "disconnected" then attemptReconnect (updateConnectionStatus s "bad" "Disconnected")
  else if st = "failed" then attemptReconnect (updateConnectionStatus s "bad" "Connection Failed")
  else (s, false)

/-- handlePlaybackError's message classification (webrtc.js lines 564-582):
substring checks on the error message, with `error.message || "Unknown
error."` as the fallback. -/
def classifyPlaybackError (message : String) : String :=
  if containsStr message "Permission" then
    "Failed to start playback. Please allow camera/microphone access."
  else if containsStr message "NotFound" then
    "Failed to start playback. Stream not found."
  else if containsStr message "Network" then
    "Failed to start playback. Network error. Please check your connection."
  else if message = "" then "Failed to start playback. Unknown error."
  else "Failed to start playback. " ++ message

/-- handlePlaybackError (webrtc.js lines 564-582): status becomes
bad/Error and the classified message is shown; nothing else changes. -/
def handlePlaybackError (s : PlayerSM) (message : String) : PlayerSM :=
  showError (updateConnectionStatus s "bad" "Error") (classifyPlaybackError message)

/-- The lifecycle events that reach the state fields: a transport
connectionstatechange, the play() promise resolving (startPlaying lines
375-381) or rejecting with an error message (line 392). -/
inductive PlayerEvent
  | connectionStateChange (st : String)
  | playResolved (now : ℚ)
  | playRejected (message : String)

/-- One lifecycle event applied to the player state; the Bool is whether
the event scheduled a reconnection timer. -/
def playerStep (s : PlayerSM) : PlayerEvent → PlayerSM × Bool
  | .connectionStateChange st => connectionStateHandler s st
  | .playResolved now =>
    ({ updateConnectionStatus s "good" "Connected" with
        isPlaying := true
        reconnectAttempts := 0
        streamStartTime := some now },
     false)
  | .playRejected message => (handlePlaybackError s message, false)

/-- State and timer flag after n consecutive transport "disconnected"
events from the initial state. -/
def discEvents : Nat → PlayerSM × Bool
  | 0 => (initialPlayer, false)
  | n + 1 => playerStep (discEvents n).1 (.connectionStateChange "disconnected")

theorem connectionStateHandler_disconnected (s : PlayerSM) :
    connectionStateHandler s "disconnected"
      = attemptReconnect (updateConnectionStatus s "bad" "Disconnected") := by
  unfold connectionStateHandler
  rw [if_neg (by decide), if_neg (by decide), if_pos rfl]

theorem connectionStateHandler_failed (s : PlayerSM) :
    connectionStateHandler s "failed"
      = attemptReconnect (updateConnectionStatus s "bad" "Connection Failed") := by
  unfold connectionStateHandler
  rw [if_neg (by decide), if_neg (by decide), if_neg (by decide), if_pos rfl]

/-- The player state and the timer flag of the last event after a sequence
of transport connectionstatechange events from the initial state. -/
def transportTrace (evs : List String) : PlayerSM × Bool :=
  List.foldl (fun acc ev => playerStep acc.1 (.connectionStateChange ev)) (initialPlayer, false) evs

theorem attemptReconnect_at_ceiling (s : PlayerSM) (h : 5 ≤ s.reconnectAttempts) :
    attemptReconnect s
      = ({ s with lastError := some "Connection lost. Please refresh the page." }, false) := by
  unfold attemptReconnect MAX_RECONNECT_ATTEMPTS
  rw [if_pos h]
  rfl

theorem attemptReconnect_below_ceiling (s : PlayerSM) (h : s.reconnectAttempts < 5) :
    (attemptReconnect s).1.reconnectAttempts = s.reconnectAttempts + 1
    ∧ (attemptReconnect s).1.lastError = s.lastError
    ∧ (attemptReconnect s).2 = true := by
  unfold attemptReconnect MAX_RECONNECT_ATTEMPTS
  rw [if_neg (by omega)]
  exact ⟨rfl, rfl, rfl⟩

/-- C1 (amended): after any N consecutive "disconnected"/"failed" transport
events (in any mixture) without an intervening Connected,
ReconnectCounter = min(N, 5); a reconnection timer is scheduled on exactly
the events N = 1..5 (so at most five automatic attempts ever run and none
is scheduled for a sixth); the terminal error ("Connection lost. Please
refresh the page.") appears on the events with N ≥ 6 — the first event at
which the counter already sits at the ceiling — not on the event N = 5. -/
theorem reconnectCounter_policy : ∀ evs : List String,
    (∀ ev ∈ evs, ev = "disconnected" ∨ ev = "failed") →
    (transportTrace evs).1.reconnectAttempts = min evs.length 5
    ∧ ((transportTrace evs).2 = true ↔ 1 ≤ evs.length ∧ evs.length ≤ 5)
    ∧ ((transportTrace evs).1.lastError
        = some "Connection lost. Please refresh the page." ↔ 6 ≤ evs.length) := by
  intro evs
  induction evs using List.reverseRecOn with
  | nil =>
    intro _
    decide
  | append_singleton evs ev ih =>
    intro hall
    have hall' : ∀ e ∈ evs, e = "disconnected" ∨ e = "failed" := by
      intro e he
      exact hall e (List.mem_append_left _ he)
    have hev : ev = "disconnected" ∨ ev = "failed" :=
      hall ev (List.mem_append_right _ (List.mem_singleton_self ev))
    obtain ⟨ih1, ih2, ih3⟩ := ih hall'
    have hlen : (evs ++ [ev]).length = evs.length + 1 := by
      rw [List.length_append, List.length_singleton]
    have hstep : transportTrace (evs ++ [ev])
        = playerStep (transportTrace evs).1 (.connectionStateChange ev) := by
      unfold transportTrace
      rw [List.foldl_append, List.foldl_cons, List.foldl_nil]
    obtain ⟨txt, htxt⟩ : ∃ txt, playerStep (transportTrace evs).1 (.connectionStateChange ev)
        = attemptReconnect (updateConnectionStatus (transportTrace evs).1 "bad" txt) := by
      rcases hev with h | h
      · rw [h]
        exact ⟨"Disconnected", connectionStateHandler_disconnected _⟩
      · rw [h]
        exact ⟨"Connection Failed", connectionStateHandler_failed _⟩
    have hpres1 : (updateConnectionStatus (transportTrace evs).1 "bad" txt).reconnectAttempts
        = (transportTrace evs).1.reconnectAttempts := rfl
    have hpres2 : (updateConnectionStatus (transportTrace evs).1 "bad" txt).lastError
        = (transportTrace evs).1.lastError := rfl
    rw [hstep, htxt]
    by_cases hceil : 5 ≤ (transportTrace evs).1.reconnectAttempts
    · have hk : 5 ≤ evs.length := by
        rw [ih1] at hceil
        omega
      rw [attemptReconnect_at_ceiling
        (updateConnectionStatus (transportTrace evs).1 "bad" txt) (by rw [hpres1]; exact hceil)]
      refine ⟨?_, ?_, ?_⟩
      · show (updateConnectionStatus (transportTrace evs).1 "bad" txt).reconnectAttempts = _
        rw [hpres1, ih1, hlen]
        omega
      · simp only [Bool.false_eq_true, false_iff, hlen]
        omega
      · simp only [true_iff, hlen]
        omega
    · have hk : evs.length < 5 := by
        rw [ih1] at hceil
        omega
      have hlow := attemptReconnect_below_ceiling
        (updateConnectionStatus (transportTrace evs).1 "bad" txt) (by rw [hpres1]; omega)
      refine ⟨?_, ?_, ?_⟩
      · rw [hlow.1, hpres1, ih1, hlen]
        omega
      · rw [hlow.2.2]
        simp only [true_iff, hlen]
        omega
      · rw [hlow.2.1, hpres2, ih3, hlen]
        omega

/-- Five consecutive transport failure events, mixing "disconnected" and
"failed". -/
def fiveTransportFailures : List String :=
  ["disconnected", "failed", "disconnected", "failed", "disconnected"]

/-- Counterexample to C1 as stated: on the 5th consecutive
disconnected/failed event the counter reaches 5, but a reconnection timer
IS scheduled (the fifth attempt) and no terminal error has been shown; the
terminal error and the absence of a timer first occur on the 6th event. -/
theorem reconnectCounter_policy_counterexample :
    (transportTrace fiveTransportFailures).1.reconnectAttempts = 5
    ∧ (transportTrace fiveTransportFailures).2 = true
    ∧ (transportTrace fiveTransportFailures).1.lastError = none
    ∧ (transportTrace (fiveTransportFailures ++ ["failed"])).2 = false
    ∧ (transportTrace (fiveTransportFailures ++ ["failed"])).1.lastError
        = some "Connection lost. Please refresh the page." := by
  decide

/-- Seven consecutive transport failure events, mixing "disconnected" and
"failed". -/
def sevenTransportFailures : List String :=
  ["disconnected", "failed", "failed", "disconnected", "failed", "disconnected", "failed"]

/-- Witness for C1 at a concrete mixed sequence of seven events. -/
theorem reconnectCounter_policy_witness :
    (∀ ev ∈ sevenTransportFailures, ev = "disconnected" ∨ ev = "failed")
    ∧ ((transportTrace sevenTransportFailures).1.reconnectAttempts
        = min sevenTransportFailures.length 5
      ∧ ((transportTrace sevenTransportFailures).2 = true
        ↔ 1 ≤ sevenTransportFailures.length ∧ sevenTransportFailures.length ≤ 5)
      ∧ ((transportTrace sevenTransportFailures).1.lastError
          = some "Connection lost. Please refresh the page."
        ↔ 6 ≤ sevenTransportFailures.length)) :=
  ⟨by decide, reconnectCounter_policy sevenTransportFailures (by decide)⟩

/-- C6: the successful completion of startPlaying (the transition into
Connected) always resets ReconnectCounter to 0, records the session start
timestamp and marks the player playing, regardless of the prior state. -/
theorem connected_resets_counter : ∀ (s : PlayerSM) (now : ℚ),
    (playerStep s (.playResolved now)).1.reconnectAttempts = 0
    ∧ (playerStep s (.playResolved now)).1.streamStartTime = some now
    ∧ (playerStep s (.playResolved now)).1.isPlaying = true
    ∧ (playerStep s (.playResolved now)).1.connectionQuality = "good" := by
  intro s now
  exact ⟨rfl, rfl, rfl, rfl⟩

/-- Witness for C6 at a state whose counter is 4. -/
theorem connected_resets_counter_witness :
    (playerStep (discEvents 4).1 (.playResolved 123456)).1.reconnectAttempts = 0
    ∧ (playerStep (discEvents 4).1 (.playResolved 123456)).1.streamStartTime = some 123456
    ∧ (playerStep (discEvents 4).1 (.playResolved 123456)).1.isPlaying = true
    ∧ (playerStep (discEvents 4).1 (.playResolved 123456)).1.connectionQuality = "good" :=
  connected_resets_counter (discEvents 4).1 123456

/-- C10: a rejection of the play() call runs handlePlaybackError, which
shows a classified error message but neither touches ReconnectCounter nor
schedules a reconnection timer — even when the counter is below the
ceiling; the only events that ever increase the counter are the transport
"disconnected" and "failed" events. -/
theorem playRejected_no_reconnect :
    (∀ (s : PlayerSM) (m : String),
      (playerStep s (.playRejected m)).1.reconnectAttempts = s.reconnectAttempts
      ∧ (playerStep s (.playRejected m)).2 = false
      ∧ (playerStep s (.playRejected m)).1.lastError = some (classifyPlaybackError m))
    ∧ (∀ (s : PlayerSM) (ev : PlayerEvent),
      s.reconnectAttempts < (playerStep s ev).1.reconnectAttempts →
      ev = .connectionStateChange "disconnected" ∨ ev = .connectionStateChange "failed")
    ∧ (∀ (s : PlayerSM) (m : String), s.reconnectAttempts < MAX_RECONNECT_ATTEMPTS →
      (playerStep s (.playRejected m)).2 = false) := by
  refine ⟨?_, ?_, ?_⟩
  · intro s m
    exact ⟨rfl, rfl, rfl⟩
  · intro s ev h
    cases ev with
    | connectionStateChange st =>
      simp only [playerStep, connectionStateHandler] at h
      split_ifs at h with h1 h2 h3 h4
      · exact absurd h (lt_irrefl _)
      · exact absurd h (lt_irrefl _)
      · left
        rw [h3]
      · right
        rw [h4]
      · exact absurd h (lt_irrefl _)
    | playResolved now => exact absurd h (Nat.not_lt_zero _)
    | playRejected m => exact absurd h (lt_irrefl _)
  · intro s m _
    rfl

/-- Witness for C10: an establishment failure at counter 2 leaves the
counter at 2, schedules nothing, and shows the classified message. -/
theorem playRejected_no_reconnect_witness :
    ((playerStep (discEvents 2).1 (.playRejected "NotFoundError")).1.reconnectAttempts
        = (discEvents 2).1.reconnectAttempts
      ∧ (playerStep (discEvents 2).1 (.playRejected "NotFoundError")).2 = false
      ∧ (playerStep (discEvents 2).1 (.playRejected "NotFoundError")).1.lastError
        = some (classifyPlaybackError "NotFoundError"))
    ∧ ((discEvents 2).1.reconnectAttempts < MAX_RECONNECT_ATTEMPTS
      ∧ (playerStep (discEvents 2).1 (.playRejected "NotFoundError")).2 = false) :=
  ⟨playRejected_no_reconnect.1 (discEvents 2).1 "NotFoundError",
   by decide,
   playRejected_no_reconnect.2.2 (discEvents 2).1 "NotFoundError" (by decide)⟩

/-- The characters the JS regex class `\s` matches: ASCII whitespace,
NBSP, the Unicode space separators U+1680 and U+2000..U+200A, the line and
paragraph separators U+2028/U+2029, the narrow and medium spaces
U+202F/U+205F, the ideographic space U+3000 and the BOM U+FEFF. -/
def jsWhitespace (c : Char) : Bool :=
  c == ' ' || c == '\t' || c == '\n' || c == '\r' || c == '\x0b' || c == '\x0c' ||
  c == '\u00A0' || c == '\u1680' || ('\u2000' ≤ c && c ≤ '\u200A') ||
  c == '\u2028' || c == '\u2029' || c == '\u202F' || c == '\u205F' ||
  c == '\u3000' || c == '\uFEFF'

/-- JS `parseInt` on a non-empty string of decimal digits. -/
def digitsToNat (ds : List Char) : Nat :=
  ds.foldl (fun n c => n * 10 + (c.toNat - '0'.toNat)) 0

/-- The regex search `text.match(/LIT(\d+)/)` for a literal `lit` followed
by one or more digits: try each start position left to right; where the
literal matches and at least one digit follows, return the parsed maximal
digit run; otherwise keep searching. Models the `profile-id=(\d+)` match of
extractVideoParams (webrtc.js lines 424-427). -/
def searchLiteralDigits (lit : List Char) : List Char → Option Nat
  | [] => none
  | c :: cs =>
    if isPrefixList lit (c :: cs) then
      match ((c :: cs).drop lit.length).takeWhile Char.isDigit with
      | [] => searchLiteralDigits lit cs
      | d :: ds => some (digitsToNat (d :: ds))
    else searchLiteralDigits lit cs

/-- The JS line terminators, the characters `.` (without the s flag) does
not match: LF, CR, U+2028 LINE SEPARATOR and U+2029 PARAGRAPH SEPARATOR. -/
def isLineTerminator (c : Char) : Bool :=
  c == '\n' || c == '\r' || c == '\u2028' || c == '\u2029'

/-- The regex piece `.*\r?\n`: `.*` consumes greedily up to the first line
terminator, after which `\r?\n` must match — either a `\n`, or a `\r`
immediately followed by a `\n`. A stray `\r` not followed by `\n`, a
U+2028/U+2029, or an end of input defeats the pattern at this position
(backtracking `.*` cannot help, since the shorter match leaves a
non-terminator character for `\r?\n`). -/
def skipLine (l : List Char) : Option (List Char) :=
  match l.dropWhile (fun c => !(isLineTerminator c)) with
  | '\r' :: '\n' :: rest => some rest
  | '\n' :: rest => some rest
  | _ => none

/-- The regex tail `a=rtpmap:(\d+)\s+(\S+)` matched at the very start of
`l`, returning the second capture group. Greedy maximal munch is exact
here because a digit is not whitespace and `\S` excludes whitespace. -/
def matchRtpmap (l : List Char) : Option String :=
  if isPrefixList "a=rtpmap:".data l then
    match (l.drop ("a=rtpmap:".data).length).takeWhile Char.isDigit with
    | [] => none
    | _ :: _ =>
      let afterDigits := (l.drop ("a=rtpmap:".data).length).dropWhile Char.isDigit
      match afterDigits.takeWhile jsWhitespace with
      | [] => none
      | _ :: _ =>
        match (afterDigits.dropWhile jsWhitespace).takeWhile (fun c => !(jsWhitespace c)) with
        | [] => none
        | t :: ts => some (String.mk (t :: ts))
  else none

/-- After the literal `m=video`, the regex continues `.*\r?\n.*\r?\n`
(skip to the end of the m=video line, then one full line) and then the
rtpmap tail. -/
def rtpmapAfterVideo (l : List Char) : Option String :=
  match skipLine l with
  | none => none
  | some l1 =>
    match skipLine l1 with
    | none => none
    | some l2 => matchRtpmap l2

/-- The regex search
`sdp.match(/m=video.*\r?\n.*\r?\na=rtpmap:(\d+)\s+(\S+)/)` of
extractVideoParams (webrtc.js line 412), returning the captured encoding
name of the first position where the whole pattern matches. -/
def sdpCodecSearch : List Char → Option String
  | [] => none
  | c :: cs =>
    if isPrefixList "m=video".data (c :: cs) then
      match rtpmapAfterVideo ((c :: cs).drop ("m=video".data).length) with
      | some tok => some tok
      | none => sdpCodecSearch cs
    else sdpCodecSearch cs

/-- `params.codec` of extractVideoParams (webrtc.js lines 411-415). -/
def extractCodec (sdp : String) : Option String := sdpCodecSearch sdp.data

/-- `params.h265ProfileId` of extractVideoParams (webrtc.js lines 423-427). -/
def extractH265ProfileId (sdp : String) : Option Nat :=
  searchLiteralDigits "profile-id=".data sdp.data

/-- JS `s.toLowerCase().includes(pat)` for a lower-case ASCII pattern:
`toLowerCase` is modelled character-wise with `Char.toLower`, which agrees
with the JS mapping on the ASCII codec names involved. -/
def lowerIncludes (s pat : String) : Bool :=
  containsList pat.data (s.data.map Char.toLower)

/-- The if-chain of the setRemoteDescription override classifying an
extracted codec name (startPlaying, webrtc.js lines 341-360):
case-insensitive substring checks against the known tokens, else the raw
reported name. -/
def classifyCodecName (codec : String) : String :=
  if lowerIncludes codec "h265" || lowerIncludes codec "hevc" then
    "H265/HEVC"
  else if lowerIncludes codec "h264" || lowerIncludes codec "avc" then
    "H264/AVC"
  else if lowerIncludes codec "vp8" then "VP8"
  else if lowerIncludes codec "vp9" then "VP9"
  else if lowerIncludes codec "av1" then "AV1"
  else codec

/-- The codec classification run inside the setRemoteDescription override
(startPlaying, webrtc.js lines 333-367): classify the extracted codec name
when there is one, fall back to H265/HEVC when no codec name was extracted
but an H.265 profile-id was, and otherwise leave this.state.codecType at
its previous value `prev`. -/
def detectCodecType (sdp : String) (prev : Option String) : Option String :=
  match extractCodec sdp with
  | some codec => some (classifyCodecName codec)
  | none =>
    match extractH265ProfileId sdp with
    | some _ => some "H265/HEVC"
    | none => prev

theorem isPrefixList_append (p u : List Char) : isPrefixList p (p ++ u) = true := by
  induction p with
  | nil => rfl
  | cons a as ih =>
    rw [List.cons_append]
    unfold isPrefixList
    rw [beq_self_eq_true]
    rw [Bool.true_and]
    exact ih

theorem isPrefixList_exists (p : List Char) :
    ∀ l : List Char, isPrefixList p l = true → ∃ t, l = p ++ t := by
  induction p with
  | nil =>
    intro l _
    exact ⟨l, rfl⟩
  | cons a as ih =>
    intro l h
    cases l with
    | nil => exact absurd h (by rw [isPrefixList]; decide)
    | cons b bs =>
      rw [isPrefixList, Bool.and_eq_true, beq_iff_eq] at h
      obtain ⟨t, ht⟩ := ih bs h.2
      refine ⟨t, ?_⟩
      rw [List.cons_append, ← ht, h.1]

theorem containsList_decomp (pat : List Char) :
    ∀ l : List Char, containsList pat l = true → ∃ s t, l = s ++ pat ++ t := by
  intro l
  induction l with
  | nil =>
    intro h
    rw [containsList, List.isEmpty_iff] at h
    exact ⟨[], [], by rw [h]; rfl⟩
  | cons c cs ih =>
    intro h
    rw [containsList, Bool.or_eq_true] at h
    rcases h with h | h
    · obtain ⟨t, ht⟩ := isPrefixList_exists pat (c :: cs) h
      exact ⟨[], t, by rw [ht]; rfl⟩
    · obtain ⟨s, t, hst⟩ := ih h
      refine ⟨c :: s, t, ?_⟩
      rw [hst]
      simp [List.append_assoc]

theorem searchLiteralDigits_isSome (a d : Char) (as t : List Char)
    (hd : d.isDigit = true) :
    ∀ s : List Char, (searchLiteralDigits (a :: as) (s ++ (a :: as) ++ d :: t)).isSome = true := by
  intro s
  induction s with
  | nil =>
    rw [List.nil_append, List.cons_append, searchLiteralDigits,
      if_pos (by rw [← List.cons_append]; exact isPrefixList_append (a :: as) (d :: t))]
    rw [← List.cons_append, List.drop_left, List.takeWhile_cons, hd]
    rfl
  | cons x xs ih =>
    rw [List.cons_append, List.cons_append, searchLiteralDigits]
    rw [← List.cons_append, ← List.cons_append]
    split
    · split
      · exact ih
      · rfl
    · exact ih

/-- The SDP text of the counterexample: it consists of exactly the line
`a=rtpmap:96 H264/90000`, with no `m=video` line two lines above it. -/
def sdpRtpmapOnly : String := "a=rtpmap:96 H264/90000"

/-- Counterexample to C2 as stated: this SDP text contains the line
`a=rtpmap:96 H264/90000`, yet the classification leaves the codec type
unchanged (here: unset) instead of H264/AVC, because the rtpmap pattern
only matches two lines below a line containing `m=video`. -/
theorem codec_classification_counterexample :
    containsStr sdpRtpmapOnly "a=rtpmap:96 H264/90000" = true
    ∧ detectCodecType sdpRtpmapOnly none ≠ some "H264/AVC"
    ∧ detectCodecType sdpRtpmapOnly none = none := by
  decide

/-- C2 (amended): the classification is H264/AVC for every SDP text from
which the rtpmap pattern actually extracts the encoding token
`H264/90000` — the token must sit two lines below a line containing
`m=video`, not merely appear in the text; and (unchanged from the claim)
every SDP text containing `profile-id=1` from which no codec name is
extractable is classified H265/HEVC. -/
theorem codec_classification :
    (∀ (sdp : String) (prev : Option String),
      extractCodec sdp = some "H264/90000" → detectCodecType sdp prev = some "H264/AVC")
    ∧ (∀ (sdp : String) (prev : Option String),
      containsStr sdp "profile-id=1" = true → extractCodec sdp = none →
      detectCodecType sdp prev = some "H265/HEVC") := by
  constructor
  · intro sdp prev h
    rw [detectCodecType, h]
    show some (classifyCodecName "H264/90000") = some "H264/AVC"
    have hcl : classifyCodecName "H264/90000" = "H264/AVC" := by decide
    rw [hcl]
  · intro sdp prev hcontains hcodec
    rw [detectCodecType, hcodec]
    have hsome : (extractH265ProfileId sdp).isSome = true := by
      obtain ⟨s, t, hst⟩ := containsList_decomp ("profile-id=1".data) sdp.data hcontains
      have hsplit : sdp.data = s ++ ("profile-id=".data) ++ '1' :: t := by
        rw [hst]
        have h1 : ("profile-id=1".data) = ("profile-id=".data) ++ ['1'] := by decide
        rw [h1, ← List.append_assoc, List.append_assoc (s ++ "profile-id=".data),
          List.singleton_append]
      have hlit : "profile-id=".data = 'p' :: "rofile-id=".data := by decide
      rw [extractH265ProfileId, hsplit, hlit]
      exact searchLiteralDigits_isSome 'p' '1' ("rofile-id=".data) t (by decide) s
    obtain ⟨k, hk⟩ := Option.isSome_iff_exists.mp hsome
    rw [hk]

/-- The SDP text of the positive witness: a well-formed video media section
whose rtpmap line is two lines below the m=video line. -/
def sdpH264 : String :=
  "m=video 9 UDP/TLS/RTP/SAVPF 96\nc=IN IP4 0.0.0.0\na=rtpmap:96 H264/90000"

/-- The SDP text of the H.265 inference witness: no extractable codec name
but a profile-id attribute. -/
def sdpH265Profile : String := "a=fmtp:96 profile-id=1"

/-- Witness for C2: both branches of the amended claim discharged at
concrete SDP texts. -/
theorem codec_classification_witness :
    (extractCodec sdpH264 = some "H264/90000"
      ∧ detectCodecType sdpH264 none = some "H264/AVC")
    ∧ (containsStr sdpH265Profile "profile-id=1" = true
      ∧ extractCodec sdpH265Profile = none
      ∧ detectCodecType sdpH265Profile none = some "H265/HEVC") :=
  ⟨⟨by decide, codec_classification.1 sdpH264 none (by decide)⟩,
   ⟨by decide, by decide, codec_classification.2 sdpH265Profile none (by decide) (by decide)⟩⟩

end WebRTC
